import Mathlib

/-!
Shallow embedding of the rust-cql CQL binary protocol client
(`src/src/lib.rs`) in Lean 4, together with theorems checking the
natural-language specification against it.

Byte streams are modelled as `List Nat` (each element a byte value);
readers are state-passing functions that consume a prefix of the stream.
Rust panics (`unreachable!`, slice-index / `usize` underflow panics) are
modelled by the distinguished outcome `DOut.panic`.  Recursive readers
whose recursion depth is driven by the input are written with an explicit
fuel parameter; the wrappers supply fuel strictly larger than any
reachable recursion depth, and fuel exhaustion is the separate marker
`DOut.outOfFuel` so it can never be confused with a genuine panic.
-/

namespace RustCql

/-- Byte sequences on the wire (`Vec<u8>` / `&[u8]`): each entry is one byte. -/
abbrev Bytes := List Nat

/-- UTF-8 strings are carried as their byte sequences (`String` in Rust). -/
abbrev CqlString := List Nat

/-- Big-endian value of a byte list (most significant byte first). -/
def beToNat (l : Bytes) : Nat :=
  l.foldl (fun a b => a * 256 + b) 0

/-- Big-endian byte list of width `k` for `u` (source: byteorder `BigEndian` writes). -/
def beBytes : Nat → Nat → Bytes
  | 0, _ => []
  | k + 1, u => beBytes k (u / 256) ++ [u % 256]

/-- Four-byte big-endian encoding (`write_u32::<BigEndian>`). -/
def be32 (u : Nat) : Bytes := beBytes 4 u

/-- Two's-complement reinterpretation of an unsigned 64-bit value as `i64`. -/
def i64OfNat (u : Nat) : Int :=
  if u < 2 ^ 63 then (u : Int) else (u : Int) - 2 ^ 64

/-- Two's-complement reinterpretation of an unsigned 32-bit value as `i32`. -/
def i32OfNat (u : Nat) : Int :=
  if u < 2 ^ 31 then (u : Int) else (u : Int) - 2 ^ 32

/-- Two's-complement reinterpretation of an unsigned 16-bit value as `i16`. -/
def i16OfNat (u : Nat) : Int :=
  if u < 2 ^ 15 then (u : Int) else (u : Int) - 2 ^ 16

/-- Unsigned 64-bit two's-complement representative of an `i64` value. -/
def twos64 (n : Int) : Nat := (n % (2 ^ 64 : Int)).toNat

/-- Unsigned 32-bit two's-complement representative (Rust `as u32` on a nonneg usize). -/
def twos32 (n : Nat) : Nat := n % 2 ^ 32

/-- Big-endian `i64` write (`write_i64::<BigEndian>`). -/
def i64be (n : Int) : Bytes := beBytes 8 (twos64 n)

/-- Rust `len as usize` cast of an `i32` (sign-extends, then reinterprets in 64 bits). -/
def intToUsize (i : Int) : Nat := (i % (2 ^ 64 : Int)).toNat

/-- Error kinds of `enum Error` (lib.rs 143-150).  `ioError` stands for
`Error::Io` (the only `Io` failures reachable from an in-memory stream are the
end-of-input failures of the byteorder reads); `utf8Error` for `Error::Utf8`. -/
inductive RErr where
  | protocol
  | unimplemented
  | unexpectedEOF
  | ioError
  | utf8Error
deriving Repr, DecidableEq

/-- Outcome of running a reader on a byte stream: success with the unread
remainder, an `Error` return, a Rust panic, or fuel exhaustion (the last is an
artifact of the embedding; wrappers supply ample fuel, so it is unreachable and
kept distinct from `panic` on purpose). -/
inductive DOut (α : Type) where
  | ok (val : α) (rest : Bytes)
  | err (e : RErr)
  | panic
  | outOfFuel
deriving Repr, DecidableEq

/-- State-passing reader over a byte stream (the `CqlReader` receiver). -/
def M (α : Type) := Bytes → DOut α

/-- Reader returning `a` without consuming input. -/
def mpure {α : Type} (a : α) : M α := fun s => .ok a s

/-- Sequencing of readers; errors, panics and fuel exhaustion short-circuit
(the Rust `?` operator). -/
def mbind {α β : Type} (x : M α) (f : α → M β) : M β := fun s =>
  match x s with
  | .ok v r => f v r
  | .err e => .err e
  | .panic => .panic
  | .outOfFuel => .outOfFuel

/-- Reader failing with error `e`. -/
def mfail {α : Type} (e : RErr) : M α := fun _ => .err e

/-- Read `k` bytes through byteorder (`read_u16`/`read_i32`/... on a reader);
running out of input is an `io::Error`, hence `Error::Io` (lib.rs 152-156). -/
def readNBE (k : Nat) : M Nat := fun s =>
  if s.length < k then .err .ioError else .ok (beToNat (s.take k)) (s.drop k)

/-- CqlReader::read_bytes via read_full (lib.rs 188-203): short input is
`Error::UnexpectedEOF`. -/
def read_bytes (len : Nat) : M Bytes := fun s =>
  if s.length < len then .err .unexpectedEOF else .ok (s.take len) (s.drop len)

/-- CqlReader::read_short (lib.rs 205-208): big-endian u16. -/
def read_short : M Nat := readNBE 2

/-- CqlReader::read_int (lib.rs 210-213): big-endian i32. -/
def read_int : M Int := mbind (readNBE 4) fun u => mpure (i32OfNat u)

/-- Big-endian u32 read (`read_u32::<BigEndian>`). -/
def read_u32 : M Nat := readNBE 4

/-- Big-endian i64 read (`read_i64::<BigEndian>`). -/
def read_i64 : M Int := mbind (readNBE 8) fun u => mpure (i64OfNat u)

/-- Single byte read (`read_u8`). -/
def read_u8 : M Nat := readNBE 1

/-- Validity of a byte sequence as UTF-8 (Rust `String::from_utf8`):
ASCII, 2-, 3- and 4-byte sequences with the standard continuation,
overlong, surrogate and range restrictions. -/
def utf8Valid : Bytes → Bool
  | [] => true
  | b :: rest =>
    if b ≤ 0x7F then utf8Valid rest
    else if 0xC2 ≤ b ∧ b ≤ 0xDF then
      match rest with
      | c1 :: r => (0x80 ≤ c1 ∧ c1 ≤ 0xBF : Bool) && utf8Valid r
      | _ => false
    else if b = 0xE0 then
      match rest with
      | c1 :: c2 :: r =>
        (0xA0 ≤ c1 ∧ c1 ≤ 0xBF : Bool) && ((0x80 ≤ c2 ∧ c2 ≤ 0xBF : Bool) && utf8Valid r)
      | _ => false
    else if (0xE1 ≤ b ∧ b ≤ 0xEC) ∨ b = 0xEE ∨ b = 0xEF then
      match rest with
      | c1 :: c2 :: r =>
        (0x80 ≤ c1 ∧ c1 ≤ 0xBF : Bool) && ((0x80 ≤ c2 ∧ c2 ≤ 0xBF : Bool) && utf8Valid r)
      | _ => false
    else if b = 0xED then
      match rest with
      | c1 :: c2 :: r =>
        (0x80 ≤ c1 ∧ c1 ≤ 0x9F : Bool) && ((0x80 ≤ c2 ∧ c2 ≤ 0xBF : Bool) && utf8Valid r)
      | _ => false
    else if b = 0xF0 then
      match rest with
      | c1 :: c2 :: c3 :: r =>
        (0x90 ≤ c1 ∧ c1 ≤ 0xBF : Bool) && ((0x80 ≤ c2 ∧ c2 ≤ 0xBF : Bool) &&
          ((0x80 ≤ c3 ∧ c3 ≤ 0xBF : Bool) && utf8Valid r))
      | _ => false
    else if 0xF1 ≤ b ∧ b ≤ 0xF3 then
      match rest with
      | c1 :: c2 :: c3 :: r =>
        (0x80 ≤ c1 ∧ c1 ≤ 0xBF : Bool) && ((0x80 ≤ c2 ∧ c2 ≤ 0xBF : Bool) &&
          ((0x80 ≤ c3 ∧ c3 ≤ 0xBF : Bool) && utf8Valid r))
      | _ => false
    else if b = 0xF4 then
      match rest with
      | c1 :: c2 :: c3 :: r =>
        (0x80 ≤ c1 ∧ c1 ≤ 0x8F : Bool) && ((0x80 ≤ c2 ∧ c2 ≤ 0xBF : Bool) &&
          ((0x80 ≤ c3 ∧ c3 ≤ 0xBF : Bool) && utf8Valid r))
      | _ => false
    else false

/-- CqlReader::read_cql_str_len (lib.rs 215-218): `len` bytes, UTF-8 checked. -/
def read_cql_str_len (len : Nat) : M CqlString :=
  mbind (read_bytes len) fun bytes => fun s =>
    if utf8Valid bytes then .ok bytes s else .err .utf8Error

/-- CqlReader::read_cql_str (lib.rs 220-225): `[short]` length then bytes. -/
def read_cql_str : M CqlString :=
  mbind read_short fun len => read_cql_str_len len

/-- Short-length-prefixed encoding of a string: the `[short]` length followed
by the bytes (the layout ShortString::serialize writes and read_cql_str reads). -/
def encShortStr (s : CqlString) : Bytes := s.length / 256 :: s.length % 256 :: s

/-- Repetition of a fixed reader `n` times, collecting the results
(the `for _ in 0..n` loops of the source). -/
def mrep {α : Type} (act : M α) : Nat → M (List α)
  | 0 => mpure []
  | n + 1 => mbind act fun v => mbind (mrep act n) fun vs => mpure (v :: vs)

/-- CqlReader::read_cql_string_list (lib.rs 227-234). -/
def read_cql_string_list : M (List CqlString) :=
  mbind read_short fun len => mrep read_cql_str len

/-- CqlReader::read_cql_string_multimap (lib.rs 236-245). -/
def read_cql_string_multimap : M (List (CqlString × List CqlString)) :=
  mbind read_short fun len =>
    mrep (mbind read_cql_str fun key =>
      mbind read_cql_string_list fun values => mpure (key, values)) len

/-- Opcodes of `enum Opcode` (lib.rs 15-33). -/
inductive Opcode where
  | Startup
  | Cred
  | Opts
  | Query
  | Prepare
  | Execute
  | Register
  | Error
  | Ready
  | Auth
  | Supported
  | Result
  | Event
deriving Repr, DecidableEq

/-- Function `opcode` (lib.rs 35-56): decode an opcode byte; every byte outside
the known set falls to `Error`. -/
def opcode (val : Nat) : Opcode :=
  match val with
  | 0x01 => .Startup
  | 0x04 => .Cred
  | 0x05 => .Opts
  | 0x07 => .Query
  | 0x09 => .Prepare
  | 0x0A => .Execute
  | 0x0B => .Register
  | 0x00 => .Error
  | 0x02 => .Ready
  | 0x03 => .Auth
  | 0x06 => .Supported
  | 0x08 => .Result
  | 0x0C => .Event
  | _ => .Error

/-- Column type ids of `enum ColumnType` (lib.rs 86-111). -/
inductive ColumnType where
  | Custom
  | Ascii
  | Bigint
  | Blob
  | Boolean
  | Counter
  | Decimal
  | Double
  | Float
  | Int
  | Text
  | Timestamp
  | UUID
  | VarChar
  | VarInt
  | TimeUUID
  | Inet
  | List
  | Map
  | Set
  | UDT
  | Tuple
  | Unknown
deriving Repr, DecidableEq

/-- Function `column_type` (lib.rs 113-141): decode a `[short]` type id. -/
def column_type (val : Nat) : ColumnType :=
  match val with
  | 0x0000 => .Custom
  | 0x0001 => .Ascii
  | 0x0002 => .Bigint
  | 0x0003 => .Blob
  | 0x0004 => .Boolean
  | 0x0005 => .Counter
  | 0x0006 => .Decimal
  | 0x0007 => .Double
  | 0x0008 => .Float
  | 0x0009 => .Int
  | 0x000A => .Text
  | 0x000B => .Timestamp
  | 0x000C => .UUID
  | 0x000D => .VarChar
  | 0x000E => .VarInt
  | 0x000F => .TimeUUID
  | 0x0010 => .Inet
  | 0x0020 => .List
  | 0x0021 => .Map
  | 0x0022 => .Set
  | 0x0030 => .UDT
  | 0x0031 => .Tuple
  | _ => .Unknown

/-- Column type descriptors, `enum CqlColDescr` (lib.rs 670-679).
`map` carries the boxed (key, value) pair as two fields; `tuple` carries the
boxed descriptor slice as a list. -/
inductive CqlColDescr where
  | custom (name : CqlString)
  | single (ty : ColumnType)
  | list (inner : CqlColDescr)
  | map (key val : CqlColDescr)
  | set (inner : CqlColDescr)
  | tuple (inner : List CqlColDescr)
deriving Repr

/-- Function `parse_varint` (lib.rs 166-174), two's-complement big-endian
sign extension into an `i64`.  The Rust body indexes `v[0]` and computes
`8 - v.len()` on `usize`, so it panics when `v` is empty or longer than
8 bytes; those panics are modelled as `none`. -/
def parse_varint (v : Bytes) : Option Int :=
  if v.length = 0 then none
  else if 8 < v.length then none
  else
    let fill : Nat := if v.headD 0 &&& 0x80 = 0 then 0 else 255
    some (i64OfNat (beToNat (List.replicate (8 - v.length) fill ++ v)))

/-- CqlReader::read_cql_varint (lib.rs 446-453): reads `len` bytes, rejects
more than 10 bytes with `Protocol`, and otherwise calls `parse_varint`
(which panics for widths 0, 9 and 10). -/
def read_cql_varint (len : Nat) : M Int :=
  mbind (read_bytes len) fun v => fun s =>
    if 10 < v.length then .err .protocol
    else
      match parse_varint v with
      | some n => .ok n s
      | none => .panic

mutual

/-- CqlReader::read_cql_col_type (lib.rs 247-278), with fuel: reads a `[short]`
type id and recurses for the container types; `Tuple` reads a `[short]` arity
and that many nested descriptors.  Every unmatched id (through `column_type`)
yields a `Single` leaf, in particular `Single(UDT)` for id 0x0030. -/
def read_cql_col_type_core : Nat → M CqlColDescr
  | 0 => fun _ => .outOfFuel
  | fuel + 1 =>
    mbind read_short fun id =>
      match column_type id with
      | .Custom => mbind read_cql_str fun name => mpure (.custom name)
      | .List => mbind (read_cql_col_type_core fuel) fun ty => mpure (.list ty)
      | .Map =>
        mbind (read_cql_col_type_core fuel) fun key_ty =>
          mbind (read_cql_col_type_core fuel) fun val_ty => mpure (.map key_ty val_ty)
      | .Set => mbind (read_cql_col_type_core fuel) fun ty => mpure (.set ty)
      | .Tuple =>
        mbind read_short fun n =>
          mbind (read_cql_col_type_list_core fuel n) fun ty_list => mpure (.tuple ty_list)
      | ty => mpure (.single ty)

/-- The `for _ in 0..n` loop of the `Tuple` arm of read_cql_col_type. -/
def read_cql_col_type_list_core : Nat → Nat → M (List CqlColDescr)
  | 0, _ => fun _ => .outOfFuel
  | _ + 1, 0 => mpure []
  | fuel + 1, n + 1 =>
    mbind (read_cql_col_type_core fuel) fun ty =>
      mbind (read_cql_col_type_list_core fuel n) fun tys => mpure (ty :: tys)

end

/-- CqlReader::read_cql_col_type with ample fuel: every recursive step of the
source first consumes at least two bytes of input, so `length + 1` levels can
never be exhausted. -/
def read_cql_col_type : M CqlColDescr := fun s =>
  read_cql_col_type_core (s.length + 1) s

/-- IP addresses (`std::net::IpAddr`): the 4 or 16 address bytes. -/
inductive IpAddr where
  | v4 (octets : Bytes)
  | v6 (octets : Bytes)
deriving Repr

/-- Values, `enum Value` (lib.rs 690-717).  Strings are carried as their UTF-8
bytes; `CqlDouble`/`CqlFloat` carry the raw IEEE-754 bit patterns as read from
the wire (the Rust code only ever `transmute`s those bits, so no floating-point
semantics is needed); `CqlCounter` carries the `u64`, `CqlBigint` and friends
the `i64`/`i32` as mathematical integers. -/
inductive Value where
  | CqlNull
  | CqlCustom (name : CqlString) (data : Bytes)
  | CqlAscii (s : CqlString)
  | CqlBigint (n : Int)
  | CqlBlob (data : Bytes)
  | CqlBoolean (b : Bool)
  | CqlCounter (n : Nat)
  | CqlDecimal (scale : Int) (unscaled : Int)
  | CqlDouble (bits : Nat)
  | CqlFloat (bits : Nat)
  | CqlInt (n : Int)
  | CqlText (s : CqlString)
  | CqlTimestamp (n : Int)
  | CqlUUID (bytes : Bytes)
  | CqlVarChar (s : CqlString)
  | CqlVarInt (n : Int)
  | CqlTimeUUID (bytes : Bytes)
  | CqlInet (addr : IpAddr)
  | CqlList (items : List Value)
  | CqlMap (items : List (Value × Value))
  | CqlSet (items : List Value)
  | CqlUDT
  | CqlTuple (items : List (List Value))
  | CqlUnknown
deriving Repr

/-- CqlReader::read_cql_col_ty (lib.rs 455-540): decode the `len`-byte body of
a non-Null cell of a singular column type.  `Custom | List | Map | Set | UDT |
Tuple` hit the source's `unreachable!` and are modelled as `panic`; the
trailing `_` arm of the source (reachable only for `ColumnType::Unknown`)
consumes `len` bytes and yields `CqlUnknown`. -/
def read_cql_col_ty (col_type : ColumnType) (len : Nat) : M Value :=
  match col_type with
  | .Ascii => mbind (read_cql_str_len len) fun s => mpure (.CqlAscii s)
  | .Bigint =>
    if len = 8 then mbind read_i64 fun n => mpure (.CqlBigint n) else mfail .protocol
  | .Blob => mbind (read_bytes len) fun v => mpure (.CqlBlob v)
  | .Boolean =>
    if len = 1 then mbind read_u8 fun b => mpure (.CqlBoolean (b != 0))
    else mfail .protocol
  | .Counter => mfail .unimplemented
  | .Decimal =>
    mbind read_int fun scale =>
      mbind (read_cql_varint len) fun unscaled => mpure (.CqlDecimal scale unscaled)
  | .Double =>
    if len = 8 then mbind (readNBE 8) fun bits => mpure (.CqlDouble bits)
    else mfail .protocol
  | .Float =>
    if len = 4 then mbind (readNBE 4) fun bits => mpure (.CqlFloat bits)
    else mfail .protocol
  | .Int =>
    if len = 4 then mbind read_int fun n => mpure (.CqlInt n) else mfail .protocol
  | .Text => mbind (read_cql_str_len len) fun s => mpure (.CqlText s)
  | .Timestamp =>
    if len = 8 then mbind read_i64 fun n => mpure (.CqlTimestamp n)
    else mfail .protocol
  | .UUID =>
    if len = 16 then mbind (read_bytes 16) fun v => mpure (.CqlUUID v)
    else mfail .protocol
  | .VarChar => mbind (read_cql_str_len len) fun s => mpure (.CqlVarChar s)
  | .VarInt => mbind (read_cql_varint len) fun n => mpure (.CqlVarInt n)
  | .TimeUUID =>
    if len = 16 then mbind (read_bytes 16) fun v => mpure (.CqlTimeUUID v)
    else mfail .protocol
  | .Inet =>
    if len = 4 then mbind (read_bytes 4) fun v => mpure (.CqlInet (.v4 v))
    else if len = 16 then mbind (read_bytes 16) fun v => mpure (.CqlInet (.v6 v))
    else mfail .protocol
  | .Custom => fun _ => .panic
  | .List => fun _ => .panic
  | .Map => fun _ => .panic
  | .Set => fun _ => .panic
  | .UDT => fun _ => .panic
  | .Tuple => fun _ => .panic
  | .Unknown => mbind (read_bytes len) fun _ => mpure .CqlUnknown

mutual

/-- CqlReader::read_cql_col (lib.rs 542-593), with fuel: reads the `[int]`
cell length (`-1` is Null, otherwise cast `as usize`), then decodes by
descriptor.  Note that the `Tuple` arm, exactly like `List`/`Set`/`Map`,
first reads an `[int]` element count `n` from the body and then decodes
`n` rows of one value per descriptor in the tuple's list. -/
def read_cql_col_core : Nat → CqlColDescr → M Value
  | 0, _ => fun _ => .outOfFuel
  | fuel + 1, col_type =>
    mbind read_int fun len0 =>
      if len0 = -1 then mpure .CqlNull
      else
        let len := intToUsize len0
        match col_type with
        | .custom name => mbind (read_bytes len) fun data => mpure (.CqlCustom name data)
        | .single ty => read_cql_col_ty ty len
        | .list ty =>
          mbind read_int fun n =>
            mbind (read_cql_col_rep_core fuel ty (intToUsize n)) fun l =>
              mpure (.CqlList l)
        | .map key_ty val_ty =>
          mbind read_int fun n =>
            mbind (read_cql_col_pairs_core fuel key_ty val_ty (intToUsize n)) fun l =>
              mpure (.CqlMap l)
        | .tuple ty_list =>
          mbind read_int fun n =>
            mbind (read_cql_col_rows_core fuel ty_list (intToUsize n)) fun l =>
              mpure (.CqlTuple l)
        | .set ty =>
          mbind read_int fun n =>
            mbind (read_cql_col_rep_core fuel ty (intToUsize n)) fun l =>
              mpure (.CqlSet l)

/-- The `for _ in 0..n` loop of the `List`/`Set` arms of read_cql_col. -/
def read_cql_col_rep_core : Nat → CqlColDescr → Nat → M (List Value)
  | 0, _, _ => fun _ => .outOfFuel
  | _ + 1, _, 0 => mpure []
  | fuel + 1, ty, n + 1 =>
    mbind (read_cql_col_core fuel ty) fun v =>
      mbind (read_cql_col_rep_core fuel ty n) fun vs => mpure (v :: vs)

/-- The `for _ in 0..n` loop of the `Map` arm of read_cql_col. -/
def read_cql_col_pairs_core : Nat → CqlColDescr → CqlColDescr → Nat → M (List (Value × Value))
  | 0, _, _, _ => fun _ => .outOfFuel
  | _ + 1, _, _, 0 => mpure []
  | fuel + 1, key_ty, val_ty, n + 1 =>
    mbind (read_cql_col_core fuel key_ty) fun key =>
      mbind (read_cql_col_core fuel val_ty) fun val =>
        mbind (read_cql_col_pairs_core fuel key_ty val_ty n) fun vs =>
          mpure ((key, val) :: vs)

/-- The inner `for ty in ty_list` loop of the `Tuple` arm: one value per
descriptor. -/
def read_cql_col_seq_core : Nat → List CqlColDescr → M (List Value)
  | 0, _ => fun _ => .outOfFuel
  | _ + 1, [] => mpure []
  | fuel + 1, ty :: tys =>
    mbind (read_cql_col_core fuel ty) fun v =>
      mbind (read_cql_col_seq_core fuel tys) fun vs => mpure (v :: vs)

/-- The outer `for _ in 0..n` loop of the `Tuple` arm. -/
def read_cql_col_rows_core : Nat → List CqlColDescr → Nat → M (List (List Value))
  | 0, _, _ => fun _ => .outOfFuel
  | _ + 1, _, 0 => mpure []
  | fuel + 1, ty_list, n + 1 =>
    mbind (read_cql_col_seq_core fuel ty_list) fun row =>
      mbind (read_cql_col_rows_core fuel ty_list n) fun rows =>
        mpure (row :: rows)

end

/-- CqlReader::read_cql_col with ample fuel: every level of recursion of the
source consumes at least four bytes of input (each nested cell starts with its
`[int]` length, each loop level is entered only after such a read succeeds),
so `2 * length + 8` levels can never be exhausted. -/
def read_cql_col (col_type : CqlColDescr) : M Value := fun s =>
  read_cql_col_core (2 * s.length + 8) col_type s

/-- Per-column metadata, `struct CqlColMetadata` (lib.rs 662-668). -/
structure CqlColMetadata where
  keyspace : Option CqlString
  table : Option CqlString
  col_name : CqlString
  col_type : CqlColDescr
deriving Repr

/-- Result metadata, `struct Metadata` (lib.rs 681-688). -/
structure Metadata where
  flags : Nat
  column_count : Nat
  keyspace : Option CqlString
  table : Option CqlString
  row_metadata : List CqlColMetadata
deriving Repr

/-- CqlReader::read_cql_col_metadata (lib.rs 280-297): the per-column
keyspace/table pair is read exactly when `flags` is NOT equal to 0x0001
(the source compares with `==`, not with a bit mask). -/
def read_cql_col_metadata (flags : Nat) : M CqlColMetadata :=
  mbind
    (if flags = 0x0001 then mpure (none, none)
     else
       mbind read_cql_str fun keyspace_str =>
         mbind read_cql_str fun table_str =>
           mpure (some keyspace_str, some table_str))
    fun kt =>
      mbind read_cql_str fun col_name =>
        mbind read_cql_col_type fun col_type =>
          mpure { keyspace := kt.1, table := kt.2, col_name, col_type }

/-- CqlReader::read_cql_metadata (lib.rs 299-322): `[int] flags`,
`[int] column_count`, the global keyspace/table pair exactly when `flags`
is equal to 0x0001 (again `==`, not a bit test), then the columns. -/
def read_cql_metadata : M Metadata :=
  mbind read_u32 fun flags =>
    mbind read_u32 fun column_count =>
      mbind
        (if flags = 0x0001 then
          mbind read_cql_str fun keyspace_str =>
            mbind read_cql_str fun table_str =>
              mpure (some keyspace_str, some table_str)
         else mpure (none, none))
        fun kt =>
          mbind (mrep (read_cql_col_metadata flags) column_count) fun row_metadata =>
            mpure { flags, column_count, keyspace := kt.1, table := kt.2, row_metadata }

/-- One row of a Rows result (`struct Row`, lib.rs 845-849); the `Rc`-shared
metadata pointer is kept on the enclosing `Rows` only. -/
structure Row where
  cols : List Value
deriving Repr

/-- A Rows result (`struct Rows`, lib.rs 861-865). -/
structure Rows where
  metadata : Metadata
  rows : List Row
deriving Repr

/-- The `for meta in metadata.row_metadata` loop of read_cql_rows: one cell
per column descriptor. -/
def read_row_cols : List CqlColMetadata → M (List Value)
  | [] => mpure []
  | meta :: metas =>
    mbind (read_cql_col meta.col_type) fun v =>
      mbind (read_row_cols metas) fun vs => mpure (v :: vs)

/-- CqlReader::read_cql_rows (lib.rs 324-347). -/
def read_cql_rows : M Rows :=
  mbind read_cql_metadata fun metadata =>
    mbind read_u32 fun rows_count =>
      mbind (mrep (mbind (read_row_cols metadata.row_metadata) fun cols =>
                    mpure ({ cols } : Row)) rows_count) fun rows =>
        mpure { metadata, rows }

/-- Result bodies, `enum ResponseResult` (lib.rs 966-973). -/
inductive ResponseResult where
  | Void
  | Rows (rows : Rows)
  | Keyspace (msg : CqlString)
  | Prepared (id : Bytes) (metadata : Metadata)
  | SchemaChange (change_type target keyspace : CqlString) (name : Option CqlString)
deriving Repr

/-- ASCII bytes of the string literal KEYSPACE. -/
def kwKEYSPACE : CqlString := [75, 69, 89, 83, 80, 65, 67, 69]

/-- ASCII bytes of the string literal TABLE. -/
def kwTABLE : CqlString := [84, 65, 66, 76, 69]

/-- ASCII bytes of the string literal TYPE. -/
def kwTYPE : CqlString := [84, 89, 80, 69]

/-- CqlReader::read_cql_result (lib.rs 349-386): dispatch on the `[int]`
result kind; kind 5 reads change_type, target and keyspace strings, then the
extra name string for targets TABLE and TYPE, none for KEYSPACE, and fails
with `Protocol` on every other target. -/
def read_cql_result : M ResponseResult :=
  mbind read_u32 fun code =>
    match code with
    | 0x0001 => mpure .Void
    | 0x0002 => mbind read_cql_rows fun rows => mpure (.Rows rows)
    | 0x0003 => mbind read_cql_str fun msg => mpure (.Keyspace msg)
    | 0x0004 =>
      mbind read_short fun len =>
        mbind (read_bytes len) fun id =>
          mbind read_cql_metadata fun metadata => mpure (.Prepared id metadata)
    | 0x0005 =>
      mbind read_cql_str fun change_type =>
        mbind read_cql_str fun target =>
          mbind read_cql_str fun ks_name =>
            if target = kwKEYSPACE then
              mpure (.SchemaChange change_type target ks_name none)
            else if target = kwTABLE ∨ target = kwTYPE then
              mbind read_cql_str fun target_name =>
                mpure (.SchemaChange change_type target ks_name (some target_name))
            else mfail .protocol
    | _ => mfail .protocol

/-- Response bodies, `enum ResponseBody` (lib.rs 957-964). -/
inductive ResponseBody where
  | Error (code : Nat) (msg : CqlString)
  | Ready
  | Auth (authenticator : CqlString)
  | Supported (options : List (CqlString × List CqlString))
  | Result (res : ResponseResult)
deriving Repr

/-- CqlReader::read_cql_body (lib.rs 388-410): dispatch on the decoded opcode;
the `Error` arm reads the two extra strings of error code 0x2400 and discards
them; request opcodes fail with `Protocol`. -/
def read_cql_body (op : Opcode) : M ResponseBody :=
  match op with
  | .Ready => mpure .Ready
  | .Auth => mbind read_cql_str fun s => mpure (.Auth s)
  | .Error =>
    mbind read_u32 fun code =>
      mbind read_cql_str fun msg =>
        mbind
          (if code = 0x2400 then
            mbind read_cql_str fun _ks =>
              mbind read_cql_str fun _namespc => mpure ()
           else mpure ())
          fun _ => mpure (.Error code msg)
  | .Result => mbind read_cql_result fun res => mpure (.Result res)
  | .Supported => mbind read_cql_string_multimap fun mm => mpure (.Supported mm)
  | _ => mfail .protocol

/-- Frame headers, `struct FrameHeader` (lib.rs 975-981). -/
structure FrameHeader where
  version : Nat
  flags : Nat
  stream : Int
  opcode : Opcode
deriving Repr

/-- Responses, `struct Response` (lib.rs 1017-1021). -/
structure Response where
  header : FrameHeader
  body : ResponseBody
deriving Repr

/-- CqlReader::read_cql_response (lib.rs 412-444): read the 9-byte header,
read exactly `length` body bytes, and decode the body in an isolated cursor
(bytes of the body left unread by the body decoder are only logged, so the
frame always consumes exactly 9 + length bytes on success). -/
def read_cql_response : M Response := fun s =>
  match read_bytes 9 s with
  | .ok header_data rest =>
    let version := header_data.getD 0 0
    let flags := header_data.getD 1 0
    let stream := i16OfNat (header_data.getD 2 0 * 256 + header_data.getD 3 0)
    let op := opcode (header_data.getD 4 0)
    let length := beToNat (header_data.drop 5)
    match read_bytes length rest with
    | .ok body_data rest2 =>
      match read_cql_body op body_data with
      | .ok body _unread => .ok { header := { version, flags, stream, opcode := op }, body } rest2
      | .err e => .err e
      | .panic => .panic
      | .outOfFuel => .outOfFuel
    | .err e => .err e
    | .panic => .panic
    | .outOfFuel => .outOfFuel
  | .err e => .err e
  | .panic => .panic
  | .outOfFuel => .outOfFuel

/-- Client::new response dispatch (lib.rs 1088-1122).  The TCP connect and the
STARTUP write are transport effects outside the byte-level model; what remains
of `Client::new` after `read_cql_response` is the match on the response body:
`Ready` constructs the client (modelled as `ok ()`), `Auth` is
`Err(Error::Unimplemented)`, and everything else is `Err(Error::Protocol)`. -/
def client_new_dispatch : ResponseBody → Except RErr Unit
  | .Ready => .ok ()
  | .Auth _ => .error .unimplemented
  | _ => .error .protocol

/-- Big-endian `i32` write (`write_i32::<BigEndian>`). -/
def i32be (n : Int) : Bytes := beBytes 4 ((n % (2 ^ 32 : Int)).toNat)

mutual

/-- The `body_len` match of `Value::len_` (lib.rs 797-841): encoded body size
of a value, excluding its own 4-byte length prefix.  `CqlDecimal`, `CqlUDT`
and `CqlUnknown` hit the source's `unimplemented!()` panic, modelled as
`none`; nested values contribute their full `len_` (body plus prefix). -/
def value_body_len : Value → Option Nat
  | .CqlNull => some 0
  | .CqlCustom _ v => some v.length
  | .CqlAscii v => some v.length
  | .CqlBigint _ => some 8
  | .CqlBlob v => some v.length
  | .CqlBoolean _ => some 1
  | .CqlCounter _ => some 8
  | .CqlDecimal _ _ => none
  | .CqlDouble _ => some 8
  | .CqlFloat _ => some 4
  | .CqlInt _ => some 4
  | .CqlText v => some v.length
  | .CqlTimestamp _ => some 8
  | .CqlUUID _ => some 16
  | .CqlVarChar v => some v.length
  | .CqlVarInt _ => some 8
  | .CqlTimeUUID _ => some 16
  | .CqlInet (.v4 _) => some 4
  | .CqlInet (.v6 _) => some 16
  | .CqlList v => (value_len_sum v).map (4 + ·)
  | .CqlMap v => (value_len_pairs_sum v).map (4 + ·)
  | .CqlSet v => (value_len_sum v).map (4 + ·)
  | .CqlUDT => none
  | .CqlTuple v => (value_len_rows_sum v).map (4 + ·)
  | .CqlUnknown => none

/-- Sum of `item.len_()` over a list of values. -/
def value_len_sum : List Value → Option Nat
  | [] => some 0
  | v :: rest =>
    match value_body_len v, value_len_sum rest with
    | some a, some b => some (4 + a + b)
    | _, _ => none

/-- Sum of `tup.0.len_() + tup.1.len_()` over map entries. -/
def value_len_pairs_sum : List (Value × Value) → Option Nat
  | [] => some 0
  | (k, v) :: rest =>
    match value_body_len k, value_body_len v, value_len_pairs_sum rest with
    | some a, some b, some c => some ((4 + a) + (4 + b) + c)
    | _, _, _ => none

/-- Sum of per-cell `len_` over the rows of a `CqlTuple`. -/
def value_len_rows_sum : List (List Value) → Option Nat
  | [] => some 0
  | row :: rest =>
    match value_len_sum row, value_len_rows_sum rest with
    | some a, some b => some (a + b)
    | _, _ => none

end

/-- `Value::len_` (lib.rs 797-842): the 4-byte length prefix plus the body. -/
def value_len (v : Value) : Option Nat := (value_body_len v).map (4 + ·)

/-- Outcome of `Value::serialize` into a fresh buffer: the bytes written so
far, paired with success, an `Error` return, or a panic.  Because the Rust
buffer argument keeps whatever was written before the failure, the `err` and
`panic` outcomes carry the partial output. -/
inductive SOut where
  | ok (out : Bytes)
  | err (out : Bytes) (e : RErr)
  | panic (out : Bytes)
deriving Repr, DecidableEq

mutual

/-- `Value::serialize` (lib.rs 720-795).  `CqlNull` writes the `-1` marker and
returns; every other value first computes `len_() - 4` (so `len_`'s
`unimplemented!()` panics happen before any byte is written), writes the
4-byte length prefix, and only then writes the body or returns
`Err(Unimplemented)` — partial output stays in the buffer. -/
def serializeVal (v : Value) : SOut :=
  match v with
  | .CqlNull => .ok [255, 255, 255, 255]
  | w =>
    match value_len w with
    | none => .panic []
    | some len_total =>
      let pre := be32 (twos32 (len_total - 4))
      match w with
      | .CqlNull => .panic pre
      | .CqlCustom _ data => .ok (pre ++ data)
      | .CqlAscii s => .ok (pre ++ s)
      | .CqlBigint n => .ok (pre ++ i64be n)
      | .CqlBlob data => .ok (pre ++ data)
      | .CqlBoolean b => .ok (pre ++ [if b then 1 else 0])
      | .CqlCounter _ => .err pre .unimplemented
      | .CqlDecimal _ _ => .err pre .unimplemented
      | .CqlDouble bits => .ok (pre ++ beBytes 8 bits)
      | .CqlFloat bits => .ok (pre ++ beBytes 4 bits)
      | .CqlInt n => .ok (pre ++ i32be n)
      | .CqlText s => .ok (pre ++ s)
      | .CqlTimestamp n => .ok (pre ++ i64be n)
      | .CqlUUID bytes => .ok (pre ++ bytes)
      | .CqlVarChar s => .ok (pre ++ s)
      | .CqlVarInt n => .ok (pre ++ i64be n)
      | .CqlTimeUUID bytes => .ok (pre ++ bytes)
      | .CqlInet (.v4 o) => .ok (pre ++ o)
      | .CqlInet (.v6 o) => .ok (pre ++ o)
      | .CqlList items => serializeSeq (pre ++ be32 (twos32 items.length)) items
      | .CqlMap items => serializePairSeq (pre ++ be32 (twos32 items.length)) items
      | .CqlSet items => serializeSeq (pre ++ be32 (twos32 items.length)) items
      | .CqlUDT => .err pre .unimplemented
      | .CqlTuple items => serializeRowsSeq (pre ++ be32 (twos32 items.length)) items
      | .CqlUnknown => .err pre .unimplemented
termination_by sizeOf v

/-- The element loop of the `CqlList`/`CqlSet` arms of serialize. -/
def serializeSeq (acc : Bytes) : List Value → SOut
  | [] => .ok acc
  | v :: rest =>
    match serializeVal v with
    | .ok out => serializeSeq (acc ++ out) rest
    | .err out e => .err (acc ++ out) e
    | .panic out => .panic (acc ++ out)
termination_by l => sizeOf l

/-- The entry loop of the `CqlMap` arm of serialize. -/
def serializePairSeq (acc : Bytes) : List (Value × Value) → SOut
  | [] => .ok acc
  | (k, v) :: rest =>
    match serializeVal k with
    | .ok out1 =>
      match serializeVal v with
      | .ok out2 => serializePairSeq (acc ++ out1 ++ out2) rest
      | .err out2 e => .err (acc ++ out1 ++ out2) e
      | .panic out2 => .panic (acc ++ out1 ++ out2)
    | .err out1 e => .err (acc ++ out1) e
    | .panic out1 => .panic (acc ++ out1)
termination_by l => sizeOf l

/-- The nested row/item loops of the `CqlTuple` arm of serialize. -/
def serializeRowsSeq (acc : Bytes) : List (List Value) → SOut
  | [] => .ok acc
  | row :: rest =>
    match serializeSeq acc row with
    | .ok out => serializeRowsSeq out rest
    | .err out e => .err out e
    | .panic out => .panic out
termination_by l => sizeOf l

end

/-! Helper lemmas about the primitive codecs. -/

lemma beBytes_length (k u : Nat) : (beBytes k u).length = k := by
  induction k generalizing u with
  | zero => simp [beBytes]
  | succ k ih => simp [beBytes, ih]

lemma beToNat_beBytes (k u : Nat) : beToNat (beBytes k u) = u % 256 ^ k := by
  induction k generalizing u with
  | zero => simp [beBytes, beToNat, Nat.mod_one]
  | succ k ih =>
    have h1 : beToNat (beBytes k (u / 256) ++ [u % 256])
        = beToNat (beBytes k (u / 256)) * 256 + u % 256 := by
      simp [beToNat, List.foldl_append]
    have h3 : u % (256 * 256 ^ k) / 256 = u / 256 % 256 ^ k :=
      Nat.mod_mul_right_div_self u 256 (256 ^ k)
    have h4 : u % (256 * 256 ^ k) % 256 = u % 256 :=
      Nat.mod_mod_of_dvd u ⟨256 ^ k, rfl⟩
    have h5 := Nat.div_add_mod (u % (256 * 256 ^ k)) 256
    have h6 : (256 : Nat) ^ (k + 1) = 256 * 256 ^ k := by ring
    rw [beBytes, h1, ih, h6]
    omega

lemma twos64_lt (n : Int) : twos64 n < 2 ^ 64 := by
  unfold twos64
  omega

lemma parse_varint_i64be (n : Int) (h1 : -(2 ^ 63) ≤ n) (h2 : n < 2 ^ 63) :
    parse_varint (i64be n) = some n := by
  have hlen : (i64be n).length = 8 := beBytes_length 8 (twos64 n)
  have hval : beToNat (i64be n) = twos64 n := by
    rw [i64be, beToNat_beBytes]
    have := twos64_lt n
    have h256 : (256 : Nat) ^ 8 = 2 ^ 64 := by norm_num
    omega
  unfold parse_varint
  rw [hlen]
  norm_num
  rw [hval]
  unfold i64OfNat twos64
  split_ifs <;> omega

lemma readNBE_exact (v t : Bytes) (k : Nat) (hk : v.length = k) :
    readNBE k (v ++ t) = .ok (beToNat v) t := by
  unfold readNBE
  subst hk
  rw [if_neg (by simp [List.length_append]), List.take_left, List.drop_left]

lemma read_bytes_exact (v t : Bytes) : read_bytes v.length (v ++ t) = .ok v t := by
  unfold read_bytes
  rw [if_neg (by simp [List.length_append]), List.take_left, List.drop_left]

lemma read_cql_str_enc (s : CqlString) (rest : Bytes) (h : utf8Valid s = true) :
    read_cql_str (encShortStr s ++ rest) = .ok s rest := by
  have hb : beToNat [s.length / 256, s.length % 256] = s.length := by
    simp [beToNat]
    omega
  have h2 := readNBE_exact [s.length / 256, s.length % 256] (s ++ rest) 2 rfl
  rw [hb] at h2
  have h3 := read_bytes_exact s rest
  have hsplit : encShortStr s ++ rest
      = [s.length / 256, s.length % 256] ++ (s ++ rest) := by simp [encShortStr]
  rw [hsplit]
  simp only [read_cql_str, read_short, read_cql_str_len, mbind, h2, h3, h, if_true]

/-! Theorems settling the claims. -/

/-- Claim C1 (code bug demonstration): the tuple descriptor 0x0031 with arity
one parses to `tuple [single Int]`, but `read_cql_col` on that descriptor reads
an outer `[int]` element count from the cell body before any element: the
canonical no-count encoding of a one-int tuple (body length 8, the single int
cell `[0,0,0,4, 0,0,0,7]`) is rejected with a `Protocol` error because its
first four body bytes are consumed as a count, while a body carrying an
explicit count 1 decodes to `CqlTuple [[CqlInt 7]]`. -/
theorem tuple_decode_reads_outer_count :
    read_cql_col_type [0, 0x31, 0, 1, 0, 9] = .ok (.tuple [.single .Int]) [] ∧
    read_cql_col (.tuple [.single .Int]) [0, 0, 0, 8, 0, 0, 0, 4, 0, 0, 0, 7]
      = .err .protocol ∧
    read_cql_col (.tuple [.single .Int]) [0, 0, 0, 12, 0, 0, 0, 1, 0, 0, 0, 4, 0, 0, 0, 7]
      = .ok (.CqlTuple [[.CqlInt 7]]) [] :=
  ⟨rfl, rfl, rfl⟩

/-- Claim C2: for every signed 64-bit `n`, `Value::serialize` on `CqlVarInt n`
writes the 4-byte length prefix with value 8 followed by the 8-byte big-endian
two's-complement body, and `parse_varint` on that body (the bytes after the
prefix) returns exactly `n`. -/
theorem cqlvarint_serialize_roundtrip (n : Int) (h1 : -(2 ^ 63) ≤ n) (h2 : n < 2 ^ 63) :
    serializeVal (.CqlVarInt n) = .ok (be32 8 ++ i64be n) ∧
    parse_varint (i64be n) = some n := by
  constructor
  · simp [serializeVal, value_len, value_body_len, twos32, be32]
  · exact parse_varint_i64be n h1 h2

/-- Witness for C2 at `n = -129`. -/
theorem cqlvarint_serialize_roundtrip_witness :
    i64be (-129) = [255, 255, 255, 255, 255, 255, 255, 127] ∧
    parse_varint (i64be (-129)) = some (-129) :=
  ⟨rfl, (cqlvarint_serialize_roundtrip (-129) (by norm_num) (by norm_num)).2⟩

/-- Claim C3 (code bug demonstration): `read_cql_metadata` compares `flags`
with 0x0001 by equality, not by bit mask.  On the flags word 0x0003 (the
GLOBAL_TABLES_SPEC bit plus one more bit) it reads no global keyspace/table
and instead reads a per-column pair, while the same layout with flags 0x0001
is read globally. -/
theorem metadata_global_flag_equality_demo :
    read_cql_metadata [0, 0, 0, 3, 0, 0, 0, 1, 0, 1, 107, 0, 1, 116, 0, 1, 99, 0, 9]
      = .ok { flags := 3, column_count := 1, keyspace := none, table := none,
              row_metadata := [{ keyspace := some [107], table := some [116],
                                 col_name := [99], col_type := .single .Int }] } [] ∧
    read_cql_metadata [0, 0, 0, 1, 0, 0, 0, 1, 0, 1, 107, 0, 1, 116, 0, 1, 99, 0, 9]
      = .ok { flags := 1, column_count := 1, keyspace := some [107], table := some [116],
              row_metadata := [{ keyspace := none, table := none,
                                 col_name := [99], col_type := .single .Int }] } [] :=
  ⟨rfl, rfl⟩

/-- Claim C4 (code bug demonstration): type id 0x0030 parses to the descriptor
`Single(UDT)`, and decoding a non-Null UDT cell hits the `unreachable!` arm of
`read_cql_col_ty` (a panic) instead of consuming the `len` body bytes and
returning `CqlUnknown`. -/
theorem udt_cell_decode_panics :
    read_cql_col_type [0, 0x30] = .ok (.single .UDT) [] ∧
    read_cql_col_ty .UDT 2 [170, 187] = .panic ∧
    read_cql_col (.single .UDT) [0, 0, 0, 2, 170, 187] = .panic :=
  ⟨rfl, rfl, rfl⟩

/-- Claim C5 (code bug demonstration): `read_cql_varint` only rejects bodies
longer than 10 bytes with `Protocol`; widths 9 and 10 reach `parse_varint`,
whose `8 - v.len()` / `v[0]` arithmetic panics, and width 0 panics as well.
Sign extension over the supported widths 1..8 matches the claim's table. -/
theorem varint_width_handling :
    read_cql_varint 9 (List.replicate 9 0) = .panic ∧
    read_cql_varint 10 (List.replicate 10 0) = .panic ∧
    read_cql_varint 0 [] = .panic ∧
    read_cql_varint 11 (List.replicate 11 0) = .err .protocol ∧
    parse_varint [0x00] = some 0 ∧
    parse_varint [0x01] = some 1 ∧
    parse_varint [0x7F] = some 127 ∧
    parse_varint [0x00, 0x80] = some 128 ∧
    parse_varint [0x00, 0x81] = some 129 ∧
    parse_varint [0xFF] = some (-1) ∧
    parse_varint [0x80] = some (-128) ∧
    parse_varint [0xFF, 0x7F] = some (-129) := by
  refine ⟨rfl, rfl, rfl, rfl, rfl, rfl, rfl, rfl, rfl, ?_, ?_, ?_⟩ <;> decide

/-- Claim C6 (code bug demonstration): decoding a Decimal cell of body length
5 consumes the 4-byte scale and then 5 more bytes (the full `len` is passed to
`read_cql_varint`), i.e. `len + 4` bytes in total: the decode below consumes
all 13 bytes, folding the four trailing bytes `[9,9,9,9]` into the unscaled
value, instead of stopping after the 5-byte body. -/
theorem decimal_decode_overreads :
    read_cql_col (.single .Decimal) [0, 0, 0, 5, 0, 0, 0, 2, 7, 9, 9, 9, 9]
      = .ok (.CqlDecimal 2 30216358153) [] :=
  rfl

/-- Claim C7 counterexample: the response frame with opcode byte 13 (outside
the defined opcode set) and a well-formed ERROR body is decoded successfully
as an ERROR response — `read_cql_response` does not return a `Protocol`
error on the unknown opcode byte. -/
theorem unknown_opcode_ok_counterexample :
    read_cql_response [131, 0, 0, 1, 13, 0, 0, 0, 6, 0, 0, 0, 0, 0, 0]
      = .ok { header := { version := 131, flags := 0, stream := 1, opcode := .Error },
              body := .Error 0 [] } [] ∧
    (13 : Nat) ∉ ([0, 1, 2, 3, 4, 5, 6, 7, 8, 9, 10, 11, 12] : List Nat) :=
  ⟨rfl, by decide⟩

/-- Claim C7 (amended): every opcode byte outside the defined set
{0x00..0x0C} is mapped by `opcode` to the `Error` opcode (the `_ => Error`
default arm), so the frame is decoded as an ERROR body rather than rejected
with a `Protocol` error. -/
theorem opcode_unknown_byte_is_error (b : Nat) (hb : b < 256)
    (h : b ∉ ([0, 1, 2, 3, 4, 5, 6, 7, 8, 9, 10, 11, 12] : List Nat)) :
    opcode b = .Error := by
  unfold opcode
  split <;> simp_all

/-- Witness for the amended C7 at byte 13. -/
theorem opcode_unknown_byte_is_error_witness : opcode 13 = .Error :=
  opcode_unknown_byte_is_error 13 (by decide) (by decide)

/-- Claim C8: a RESULT body of kind 0x0005 reads the change_type, target and
keyspace strings and then reads the extra name string exactly when the target
is TABLE or TYPE (none for KEYSPACE), failing with `Protocol` on every other
target string. -/
theorem schema_change_target_dispatch (ct tgt ks nm rest : List Nat)
    (hct : utf8Valid ct = true) (htgt : utf8Valid tgt = true)
    (hks : utf8Valid ks = true) (hnm : utf8Valid nm = true) :
    (tgt = kwKEYSPACE →
      read_cql_result (be32 5 ++ encShortStr ct ++ encShortStr tgt ++ encShortStr ks ++ rest)
        = .ok (.SchemaChange ct tgt ks none) rest) ∧
    ((tgt = kwTABLE ∨ tgt = kwTYPE) →
      read_cql_result (be32 5 ++ encShortStr ct ++ encShortStr tgt ++ encShortStr ks ++
          encShortStr nm ++ rest)
        = .ok (.SchemaChange ct tgt ks (some nm)) rest) ∧
    (tgt ≠ kwKEYSPACE → tgt ≠ kwTABLE → tgt ≠ kwTYPE →
      read_cql_result (be32 5 ++ encShortStr ct ++ encShortStr tgt ++ encShortStr ks ++ rest)
        = .err .protocol) := by
  have hpre : ∀ X : Bytes, readNBE 4 (be32 5 ++ X) = .ok 5 X := fun X =>
    readNBE_exact [0, 0, 0, 5] X 4 rfl
  refine ⟨?_, ?_, ?_⟩
  · intro h
    subst h
    simp only [read_cql_result, read_u32, mbind, List.append_assoc]
    rw [hpre]
    simp only [mbind, read_cql_str_enc _ _ hct, read_cql_str_enc _ _ htgt,
      read_cql_str_enc _ _ hks, mpure]
    simp [mpure]
  · rintro (h | h) <;> subst h <;>
      simp only [read_cql_result, read_u32, mbind, List.append_assoc] <;>
      rw [hpre] <;>
      simp only [mbind, read_cql_str_enc _ _ hct, read_cql_str_enc _ _ htgt,
        read_cql_str_enc _ _ hks, mpure] <;>
      rw [if_neg (by decide), if_pos (by decide)] <;>
      simp only [mbind, read_cql_str_enc _ _ hnm, mpure]
  · intro h1 h2 h3
    simp only [read_cql_result, read_u32, mbind, List.append_assoc]
    rw [hpre]
    simp only [mbind, read_cql_str_enc _ _ hct, read_cql_str_enc _ _ htgt,
      read_cql_str_enc _ _ hks, mpure, mfail]
    rw [if_neg h1, if_neg (by tauto)]
    rfl

/-- Witness for C8: change_type "C", target "B" (not one of the three
keywords), keyspace "K" — the kind-5 body is rejected with `Protocol`. -/
theorem schema_change_target_dispatch_witness :
    read_cql_result (be32 5 ++ encShortStr [67] ++ encShortStr [66] ++ encShortStr [75] ++ [])
      = .err .protocol :=
  (schema_change_target_dispatch [67] [66] [75] [] [] (by decide) (by decide)
      (by decide) (by decide)).2.2 (by decide) (by decide) (by decide)

/-- Claim C9: the response-body dispatch of `Client::new` — a READY body
constructs the client, an AUTHENTICATE body is `Unimplemented`, and every
other body is a `Protocol` error. -/
theorem client_new_body_dispatch :
    client_new_dispatch .Ready = .ok () ∧
    (∀ s : CqlString, client_new_dispatch (.Auth s) = .error .unimplemented) ∧
    (∀ b : ResponseBody, b ≠ .Ready → (∀ s, b ≠ .Auth s) →
      client_new_dispatch b = .error .protocol) := by
  refine ⟨rfl, fun _ => rfl, ?_⟩
  intro b h1 h2
  cases b with
  | Ready => exact absurd rfl h1
  | Auth s => exact absurd rfl (h2 s)
  | Error c m => rfl
  | Supported mm => rfl
  | Result r => rfl

/-- Witness for C9 at the ERROR body. -/
theorem client_new_body_dispatch_witness :
    client_new_dispatch (.Error 0 []) = .error .protocol :=
  client_new_body_dispatch.2.2 (.Error 0 []) (fun h => nomatch h) (fun _ h => nomatch h)

/-- Claim C10: `Value::len_` reports a body size of 8 for a counter, and
`Value::serialize` on `CqlCounter` writes the 4-byte length prefix
`[0,0,0,8]` into the buffer before returning `Err(Unimplemented)` — the
failed encode leaves those 4 bytes of partial output behind. -/
theorem counter_serialize_partial_output (c : Nat) :
    value_body_len (.CqlCounter c) = some 8 ∧
    serializeVal (.CqlCounter c) = .err [0, 0, 0, 8] .unimplemented := by
  constructor
  · rfl
  · simp [serializeVal, value_len, value_body_len, twos32, be32, beBytes]

end RustCql
